import Mathlib

/-!
Verification of the Vita3K `app_init.cpp` bootstrap-and-lifecycle controller.

We shallowly embed the functions of `vita3k/app/src/app_init.cpp`:
filesystem paths become lists of components (`Path`), the read-only
filesystem probes (`fs::exists`, `fs::is_directory`) become boolean
oracles, environment variables become `Option` values, and the calls into
external subsystems (SDL, adrenotools, kernel, audio, ngs) become either
oracle parameters or events recorded in a trace.  Floating-point
arithmetic in the viewport calculator is embedded over `ℚ` (exact
arithmetic standing in for `float` within tolerance).
-/

namespace Vita3K

/-- A host filesystem path, as its list of components.  The C++ code's
trailing-slash normalisation (`p / ""`) does not change the directory a
path denotes, so trailing empty components are dropped in this model;
consequently one `parent_path()` call spent on removing a trailing slash
is dropped as well. -/
abbrev Path := List String

/-- The application identity used by the resolver (`app_name` and
`org_name` are both "Vita3K" in `config/version.h`). -/
def app_name : String := "Vita3K"

/-- The six-plus-one host directory roles resolved by `init_paths`
(mirrors the `Root` class: base, static assets, pref, log, config,
shared, cache). -/
structure Root where
  base : Path
  static_assets : Path
  pref : Path
  log : Path
  config : Path
  shared : Path
  cache : Path
deriving Repr, DecidableEq

/-- Read-only filesystem probes consumed by `init_paths`:
`isDir` models `fs::is_directory`, `ex` models `fs::exists`. -/
structure FsProbe where
  isDir : Path → Bool
  ex : Path → Bool

/-- The environment variables read by the Linux branch of `init_paths`.
`XDG_DATA_DIRS` is a colon-separated list in C++ (split by
`string_utils::split_string`), modelled directly as a list of paths. -/
structure EnvVars where
  home : Option Path
  xdg_data_dirs : Option (List Path)
  xdg_data_home : Option Path
  xdg_cache_home : Option Path
  xdg_config_home : Option Path
  appdir : Option Path

/-- The desktop platform family selected by the preprocessor in
`init_paths` (`__APPLE__`, `__linux__ && !__APPLE__`, or neither). -/
inductive DesktopPlatform
  | windows
  | apple
  | linux
deriving Repr, DecidableEq

/-- The candidate portable directory: `base_path / "portable"`, except on
Apple where four `parent_path()` calls walk out of the
`Contents/Resources/` bundle directory (one of the four only strips the
trailing slash, hence three component drops in this model). -/
def portablePath : DesktopPlatform → Path → Path
  | .apple, base => base.dropLast.dropLast.dropLast ++ ["portable"]
  | _, base => base ++ ["portable"]

/-- The XDG refinement block of `init_paths`
(`#if defined(__linux__) && !defined(__APPLE__)`, lines 269–332),
executed only in the non-portable desktop branch.  `r.base` here is the
original executable base path (`get_base_path()` reads the value stored
at the top of the function). -/
def xdg_refine (fsp : FsProbe) (env : EnvVars) (r : Root) : Root :=
  let r := match env.xdg_data_home with
    | some d => { r with pref := d ++ [app_name, app_name] }
    | none => r
  let r := match env.xdg_config_home with
    | some d => { r with config := d ++ [app_name] }
    | none => match env.home with
      | some h => { r with config := h ++ [".config", app_name] }
      | none => r
  let r := match env.xdg_cache_home with
    | some d => { r with cache := d ++ [app_name], log := d ++ [app_name] }
    | none => match env.home with
      | some h => { r with cache := h ++ [".cache", app_name], log := h ++ [".cache", app_name] }
      | none => r
  let r :=
    if fsp.ex (r.base ++ ["data"]) && fsp.ex (r.base ++ ["lang"]) && fsp.ex (r.base ++ ["shaders-builtin"]) then
      { r with static_assets := r.base }
    else match env.home with
      | some h => { r with static_assets := h ++ [".local", "share", app_name] }
      | none => r
  let r := match env.xdg_data_dirs with
    | some dirs =>
      match dirs.find? (fun d => fsp.ex (d ++ [app_name])) with
      | some d => { r with static_assets := d ++ [app_name] }
      | none => r
    | none => match env.xdg_data_home with
      | some d =>
        if fsp.ex (d ++ [app_name, "data"]) && fsp.ex (d ++ [app_name, "lang"]) && fsp.ex (d ++ [app_name, "shaders-builtin"]) then
          { r with static_assets := d ++ [app_name] }
        else r
      | none => r
  let r := match env.appdir with
    | some a =>
      if fsp.ex (a ++ ["usr", "share", app_name]) then
        { r with static_assets := a ++ ["usr", "share", app_name] }
      else r
    | none => r
  let r := match env.home with
    | some h => { r with shared := h ++ [".local", "share", app_name] }
    | none => r
  let r := match env.xdg_data_dirs with
    | some dirs =>
      match dirs.find? (fun d => fsp.ex (d ++ [app_name])) with
      | some d => { r with shared := d ++ [app_name] }
      | none => r
    | none => match env.xdg_data_home with
      | some d => { r with shared := d ++ [app_name] }
      | none => r
  r

/-- The desktop (non-Android) branch of `init_paths` (lines 213–333).
`base_path` is the directory of the running executable
(`SDL_GetBasePath`), `sdl_pref_path` the platform per-user data
directory (`SDL_GetPrefPath(org_name, app_name)`); both are oracle
inputs, as are the filesystem probes and environment variables.  The
directory-creation side effects at the end of the function do not change
the resolved roles and are omitted. -/
def init_paths_desktop (p : DesktopPlatform) (fsp : FsProbe) (env : EnvVars)
    (base_path sdl_pref_path : Path) : Root :=
  let portable := portablePath p base_path
  if fsp.isDir portable then
    { base := base_path
      static_assets := base_path
      pref := portable ++ ["fs"]
      log := portable
      config := portable
      shared := portable
      cache := portable ++ ["cache"] }
  else
    -- On Apple, `base_path` (a mutable local) is redirected to the user
    -- pref path unless a legacy `config.yml` sits in the bundle; the
    -- `base` role itself was already stored from the original value.
    let base1 := if p = .apple && !(fsp.ex (base_path ++ ["config.yml"])) then sdl_pref_path else base_path
    -- On Apple, pref gets an "fs" suffix unless a legacy `ux0` directory
    -- already exists under the pref path.
    let pref1 := if p = .apple && !(fsp.isDir (sdl_pref_path ++ ["ux0"])) then sdl_pref_path ++ ["fs"] else sdl_pref_path
    let r : Root :=
      { base := base_path
        static_assets := base_path
        pref := pref1
        log := base1
        config := base1
        shared := base1
        cache := base1 ++ ["cache"] }
    if p = .linux then xdg_refine fsp env r else r

/-- The Android branch of `init_paths` (lines 200–212): every role
collapses onto the external storage path, with `vita/` for pref and
`cache/` for cache. -/
def init_paths_android (storage : Path) : Root :=
  { base := storage
    static_assets := storage
    pref := storage ++ ["vita"]
    log := storage
    config := storage
    shared := storage
    cache := storage ++ ["cache"] }

/-- A path `q` is rooted under `root` when `root` is an initial segment
of `q`. -/
def rootedUnder (root q : Path) : Prop := ∃ rest, q = root ++ rest

/-! ## Viewport calculator (`update_viewport`, lines 148–197) -/

/-- Embedding of `DEFAULT_RES_WIDTH`, the emulated display width. -/
def DEFAULT_RES_WIDTH : ℚ := 960

/-- Embedding of `DEFAULT_RES_HEIGHT`, the emulated display height. -/
def DEFAULT_RES_HEIGHT : ℚ := 544

/-- The viewport geometry written into `EmuEnvState`:
`viewport_pos` and `viewport_size`. -/
structure Viewport where
  pos_x : ℚ
  pos_y : ℚ
  size_x : ℚ
  size_y : ℚ
deriving Repr, DecidableEq

/-- The viewport computation of `update_viewport` as a function of the
drawable size reported by SDL and the `stretch_the_display_area`
configuration flag.  `float` arithmetic is embedded over `ℚ`. -/
def update_viewport (w h : Int) (stretch : Bool) : Viewport :=
  if h > 0 then
    let window_aspect : ℚ := (w : ℚ) / (h : ℚ)
    let vita_aspect : ℚ := DEFAULT_RES_WIDTH / DEFAULT_RES_HEIGHT
    if stretch then
      { pos_x := 0, pos_y := 0, size_x := (w : ℚ), size_y := (h : ℚ) }
    else if window_aspect > vita_aspect then
      -- Window is wide. Pin top and bottom.
      { pos_x := ((w : ℚ) - (h : ℚ) * vita_aspect) / 2
        pos_y := 0
        size_x := (h : ℚ) * vita_aspect
        size_y := (h : ℚ) }
    else
      -- Window is tall. Pin left and right.
      { pos_x := 0
        pos_y := ((h : ℚ) - (w : ℚ) / vita_aspect) / 2
        size_x := (w : ℚ)
        size_y := (w : ℚ) / vita_aspect }
  else
    { pos_x := 0, pos_y := 0, size_x := 0, size_y := 0 }

/-! ## Backend selection (fragment of `init`, lines 378–387) -/

/-- The rendering backends (`renderer::Backend`). -/
inductive Backend
  | OpenGL
  | Vulkan
deriving Repr, DecidableEq

/-- Embedding of `string_utils::toupper`: upper-case every character of the string
(ASCII `toupper` per character). -/
def str_toupper (s : String) : String := String.mk (s.data.map Char.toUpper)

/-- The backend-selection fragment of `init`: default is Vulkan; a
configuration whose `backend_renderer` string upper-cases to "OPENGL"
selects OpenGL, except on Apple where the configuration is corrected to
"Vulkan" and serialized back to the configuration file.  Returns the
selected backend and the corrected backend string written by
`config::serialize_config` (`none` when no serialization happens).  This
fragment has no failure path: `init` does not return `false` from it. -/
def select_backend (apple : Bool) (cfg_backend : String) : Backend × Option String :=
  if str_toupper cfg_backend = "OPENGL" then
    if apple then (Backend.Vulkan, some "Vulkan")
    else (Backend.OpenGL, none)
  else (Backend.Vulkan, none)

/-! ## Driver loader (`load_custom_driver`, lines 59–144, Android only) -/

/-- Result of one `load_custom_driver` run: whether it returned `true`,
and whether the native primitive `adrenotools_open_libvulkan` was
invoked at all. -/
structure DriverLoadResult where
  success : Bool
  adrenotools_invoked : Bool
deriving Repr, DecidableEq

/-- Embedding of `load_custom_driver`: probes
`<internal storage>/driver/<driver_name>/`, then its `driver_name.txt`
manifest, and only then calls `adrenotools_open_libvulkan` followed by
the `SDL_Vulkan_LoadLibrary` magic-struct handshake.  The filesystem
probe, the nullness of the adrenotools handle and the SDL handshake
outcome are oracle inputs; directory creation (tmp dir below SDK 29,
`file_redirect`) does not affect the result. -/
def load_custom_driver (driver_name : String) (internal_storage : Path)
    (fsex : Path → Bool) (adreno_handle_nonnull sdl_load_ok : Bool) : DriverLoadResult :=
  let driver_path := internal_storage ++ ["driver", driver_name]
  if !(fsex driver_path) then
    { success := false, adrenotools_invoked := false }
  else if !(fsex (driver_path ++ ["driver_name.txt"])) then
    { success := false, adrenotools_invoked := false }
  else if !adreno_handle_nonnull then
    { success := false, adrenotools_invoked := true }
  else if !sdl_load_ok then
    { success := false, adrenotools_invoked := true }
  else
    { success := true, adrenotools_invoked := true }

/-! ## Late initialization (`late_init`, lines 495–526) -/

/-- The memory-mapping methods reported by the renderer
(`MappingMethod`). -/
inductive MappingMethod
  | Direct
  | PageTable
  | NativeBuffer
deriving Repr, DecidableEq

/-- The CPU backends relevant to the page-table compatibility warning
(`CPUBackend`). -/
inductive CPUBackend
  | Unicorn
  | Dynarmic
deriving Repr, DecidableEq

/-- Embedding of `need_page_table` as computed on line 500: the memory subsystem is
configured with a page table exactly for the `PageTable` and
`NativeBuffer` mapping methods. -/
def need_page_table (m : MappingMethod) : Bool :=
  m = MappingMethod.PageTable || m = MappingMethod.NativeBuffer

/-- Observable events of one `late_init` run, in program order. -/
inductive LateEvent
  | memInitCall (needs_page_table : Bool)
  | memFailLog
  | unicornCriticalLog
  | audioWarnLog
  | ngsFailLog
deriving Repr, DecidableEq

/-- Result of `late_init`: its boolean return value and the events it
performed in order. -/
structure LateInitResult where
  success : Bool
  events : List LateEvent
deriving Repr, DecidableEq

/-- Embedding of `late_init`: the renderer has reported `mapping`; the outcomes of
`init(state.mem, ...)`, `state.audio.init(...)` and `ngs::init(...)` and
the memory subsystem's resulting `use_page_table` flag are oracle
inputs.  Memory-init failure returns `false`; the Unicorn/page-table
combination only logs; audio failure only logs a warning; ngs failure
returns `false`. -/
def late_init (mapping : MappingMethod) (mem_ok use_page_table : Bool)
    (cpu : CPUBackend) (audio_ok ngs_ok : Bool) : LateInitResult :=
  let npt := need_page_table mapping
  let ev0 := [LateEvent.memInitCall npt]
  if !mem_ok then
    { success := false, events := ev0 ++ [LateEvent.memFailLog] }
  else
    let ev1 := ev0 ++ (if use_page_table && cpu = CPUBackend.Unicorn then [LateEvent.unicornCriticalLog] else [])
    let ev2 := ev1 ++ (if audio_ok then [] else [LateEvent.audioWarnLog])
    if !ngs_ok then
      { success := false, events := ev2 ++ [LateEvent.ngsFailLog] }
    else
      { success := true, events := ev2 }

/-! ## Pause/resume fan-out (`switch_state`, lines 543–563) -/

/-- Scheduler status of one emulated thread, as far as the pause/resume
fan-out observes it. -/
inductive ThreadStatus
  | run
  | wait
deriving Repr, DecidableEq

/-- The observable state touched by `switch_state`: the kernel thread
registry, the audio stream's paused flag, and the Android overlay state
(`display.imgui_render` and the controller overlay mask). -/
structure SysState where
  threads : List (Nat × ThreadStatus)
  audio_paused : Bool
  imgui_render : Bool
  overlay_mask : Nat
deriving Repr, DecidableEq

/-- Modelled from the spec: `kernel.pause_threads()` is declared in
`kernel/state.h`, which is not part of this repository slice.  Per
§4.5 of the design, it requests every schedulable emulated thread to
transition out of the runnable state (runnable threads become waiting;
waiting threads stay waiting — with the two statuses observed here both
cases yield `wait`). -/
def kernel_pause_threads (ts : List (Nat × ThreadStatus)) : List (Nat × ThreadStatus) :=
  ts.map fun t => (t.1, ThreadStatus.wait)

/-- Modelled from the spec: `kernel.resume_threads()` is declared in
`kernel/state.h`, which is not part of this repository slice.  Per
§4.5 of the design, on resume any thread parked in a wait state is moved
back to runnable (running threads stay running — with the two statuses
observed here both cases yield `run`). -/
def kernel_resume_threads (ts : List (Nat × ThreadStatus)) : List (Nat × ThreadStatus) :=
  ts.map fun t => (t.1, ThreadStatus.run)

/-- The externally visible effects of one `switch_state` call, in the
order the code performs them. -/
inductive FanoutEvent
  | overlaySet (mask : Nat)
  | threadTransition (pause : Bool)
  | audioTransition (pause : Bool)
deriving Repr, DecidableEq

/-- Embedding of `switch_state`: on pause, (Android only) show the ImGui overlay and
clear the controller overlay, then `kernel.pause_threads()`; on resume,
(Android only) hide the ImGui overlay and restore the controller overlay
when enabled, then `kernel.resume_threads()`; in both directions
`audio.switch_state(pause)` comes last.  `audio.switch_state` is
modelled from the spec (audio subsystem not in this slice) as setting
the stream's paused flag.  Returns the new state and the ordered list of
fan-out effects. -/
def switch_state (android overlay_enabled : Bool) (overlay_display_mask : Nat)
    (s : SysState) (pause : Bool) : SysState × List FanoutEvent :=
  if pause then
    let (s1, ev1) :=
      if android then
        ({ s with imgui_render := true, overlay_mask := 0 }, [FanoutEvent.overlaySet 0])
      else (s, [])
    let s2 := { s1 with threads := kernel_pause_threads s1.threads }
    let s3 := { s2 with audio_paused := true }
    (s3, ev1 ++ [FanoutEvent.threadTransition true, FanoutEvent.audioTransition true])
  else
    let (s1, ev1) :=
      if android then
        if overlay_enabled then
          ({ s with imgui_render := false, overlay_mask := overlay_display_mask },
            [FanoutEvent.overlaySet overlay_display_mask])
        else ({ s with imgui_render := false }, [])
      else (s, [])
    let s2 := { s1 with threads := kernel_resume_threads s1.threads }
    let s3 := { s2 with audio_paused := false }
    (s3, ev1 ++ [FanoutEvent.threadTransition false, FanoutEvent.audioTransition false])

/-! ## Claim theorems -/

/-- C4: for every drawable size with `drawable_h ≤ 0`, and for either
value of the stretch flag, `update_viewport` returns exactly the
degenerate rectangle with position (0,0) and size (0,0). -/
theorem update_viewport_degenerate (w h : Int) (stretch : Bool) (hh : h ≤ 0) :
    update_viewport w h stretch = { pos_x := 0, pos_y := 0, size_x := 0, size_y := 0 } := by
  unfold update_viewport
  rw [if_neg (by omega)]

theorem update_viewport_degenerate_witness :
    (0 : Int) ≤ 0
    ∧ update_viewport 5 0 true = { pos_x := 0, pos_y := 0, size_x := 0, size_y := 0 } :=
  ⟨le_refl 0, update_viewport_degenerate 5 0 true (le_refl 0)⟩

/-- C3 (amended): for every drawable size with `drawable_h > 0` and
`stretch = false`, the viewport is the piecewise rectangle the claim
describes (wide windows pin the height and center horizontally, others
pin the width and center vertically), and whenever `drawable_w > 0` the
output viewport's width/height ratio equals the reference aspect ratio
`DEFAULT_RES_WIDTH / DEFAULT_RES_HEIGHT` exactly over ℚ. -/
theorem update_viewport_spec (w h : Int) (hh : 0 < h) :
    (((w : ℚ) / (h : ℚ) > DEFAULT_RES_WIDTH / DEFAULT_RES_HEIGHT) →
      update_viewport w h false =
        { pos_x := ((w : ℚ) - (h : ℚ) * (DEFAULT_RES_WIDTH / DEFAULT_RES_HEIGHT)) / 2
          pos_y := 0
          size_x := (h : ℚ) * (DEFAULT_RES_WIDTH / DEFAULT_RES_HEIGHT)
          size_y := (h : ℚ) })
    ∧ (¬((w : ℚ) / (h : ℚ) > DEFAULT_RES_WIDTH / DEFAULT_RES_HEIGHT) →
      update_viewport w h false =
        { pos_x := 0
          pos_y := ((h : ℚ) - (w : ℚ) / (DEFAULT_RES_WIDTH / DEFAULT_RES_HEIGHT)) / 2
          size_x := (w : ℚ)
          size_y := (w : ℚ) / (DEFAULT_RES_WIDTH / DEFAULT_RES_HEIGHT) })
    ∧ (0 < w →
      (update_viewport w h false).size_x / (update_viewport w h false).size_y
        = DEFAULT_RES_WIDTH / DEFAULT_RES_HEIGHT) := by
  have hq : (0 : ℚ) < (h : ℚ) := by exact_mod_cast hh
  have hva : (DEFAULT_RES_WIDTH / DEFAULT_RES_HEIGHT : ℚ) ≠ 0 := by
    norm_num [DEFAULT_RES_WIDTH, DEFAULT_RES_HEIGHT]
  refine ⟨fun hw => ?_, fun hw => ?_, fun hwpos => ?_⟩
  · simp only [update_viewport, if_pos hh]
    rw [if_pos hw]
    simp
  · simp only [update_viewport, if_pos hh]
    rw [if_neg hw]
    simp
  · by_cases hw : ((w : ℚ) / (h : ℚ) > DEFAULT_RES_WIDTH / DEFAULT_RES_HEIGHT)
    · simp only [update_viewport, if_pos hh]
      rw [if_pos hw]
      simp only [Bool.false_eq_true, if_false]
      exact mul_div_cancel_left₀ _ (ne_of_gt hq)
    · simp only [update_viewport, if_pos hh]
      rw [if_neg hw]
      simp only [Bool.false_eq_true, if_false]
      have hwq : ((w : ℚ)) ≠ 0 := by
        have h0 : (0 : ℚ) < (w : ℚ) := by exact_mod_cast hwpos
        exact ne_of_gt h0
      field_simp
      rw [mul_div_mul_left _ _ hwq]

/-- C3 counterexample: at drawable size (0, 1) with `stretch = false`
the viewport degenerates to size (0, 0), whose width/height ratio is not
the reference aspect ratio — the claim's aspect-preservation conclusion
fails without a `drawable_w > 0` assumption. -/
theorem update_viewport_aspect_cex :
    ¬((update_viewport 0 1 false).size_x / (update_viewport 0 1 false).size_y
        = DEFAULT_RES_WIDTH / DEFAULT_RES_HEIGHT) := by
  simp only [update_viewport]
  norm_num [DEFAULT_RES_WIDTH, DEFAULT_RES_HEIGHT]

theorem update_viewport_spec_witness :
    (0 : Int) < 1080 ∧ (0 : Int) < 1920
    ∧ (update_viewport 1920 1080 false).size_x / (update_viewport 1920 1080 false).size_y
        = DEFAULT_RES_WIDTH / DEFAULT_RES_HEIGHT :=
  ⟨by decide, by decide, (update_viewport_spec 1920 1080 (by decide)).2.2 (by decide)⟩

/-- C5: backend selection honors a requested OpenGL backend except on
Apple, where Vulkan is selected instead and the corrected value "Vulkan"
is serialized back to the configuration file; with no OpenGL request the
default Vulkan backend is selected on every platform.  No failure path
exists in this fragment. -/
theorem select_backend_spec (s : String) :
    (str_toupper s = "OPENGL" → select_backend true s = (Backend.Vulkan, some "Vulkan"))
    ∧ (str_toupper s = "OPENGL" → select_backend false s = (Backend.OpenGL, none))
    ∧ (str_toupper s ≠ "OPENGL" → ∀ apple, select_backend apple s = (Backend.Vulkan, none)) := by
  refine ⟨fun hs => ?_, fun hs => ?_, fun hs apple => ?_⟩ <;>
    simp [select_backend, hs]

theorem select_backend_spec_witness :
    (str_toupper "OpenGL" = "OPENGL"
      ∧ select_backend true "OpenGL" = (Backend.Vulkan, some "Vulkan")
      ∧ select_backend false "OpenGL" = (Backend.OpenGL, none))
    ∧ (str_toupper "Vulkan" ≠ "OPENGL"
      ∧ select_backend false "Vulkan" = (Backend.Vulkan, none)) :=
  ⟨⟨by decide, (select_backend_spec "OpenGL").1 (by decide),
      (select_backend_spec "OpenGL").2.1 (by decide)⟩,
    ⟨by decide, (select_backend_spec "Vulkan").2.2 (by decide) false⟩⟩

/-- C6: for every driver name whose driver directory exists but whose
`driver_name.txt` manifest does not, `load_custom_driver` fails and
`adrenotools_open_libvulkan` is never invoked. -/
theorem load_custom_driver_manifest_missing (driver_name : String) (storage : Path)
    (fsex : Path → Bool) (ah sl : Bool)
    (hdir : fsex (storage ++ ["driver", driver_name]) = true)
    (hman : fsex (storage ++ ["driver", driver_name, "driver_name.txt"]) = false) :
    load_custom_driver driver_name storage fsex ah sl
      = { success := false, adrenotools_invoked := false } := by
  simp [load_custom_driver, hdir, hman]

/-- Concrete probe for the manifest-missing witness: only the driver
directory `st/driver/d` exists. -/
def manifest_missing_probe : Path → Bool := fun q => decide (q = ["st", "driver", "d"])

theorem load_custom_driver_manifest_missing_witness :
    manifest_missing_probe (["st"] ++ ["driver", "d"]) = true
    ∧ manifest_missing_probe (["st"] ++ ["driver", "d", "driver_name.txt"]) = false
    ∧ load_custom_driver "d" ["st"] manifest_missing_probe true true
        = { success := false, adrenotools_invoked := false } :=
  ⟨by decide, by decide,
    load_custom_driver_manifest_missing "d" ["st"] manifest_missing_probe true true
      (by decide) (by decide)⟩

/-- C7: in `late_init`, an audio-init failure is non-fatal — with memory
and ngs succeeding the function logs a warning and still returns success
— whereas an ngs-init failure makes `late_init` return failure. -/
theorem late_init_audio_nonfatal_ngs_fatal (mapping : MappingMethod) (upt : Bool)
    (cpu : CPUBackend) (audio : Bool) :
    ((late_init mapping true upt cpu false true).success = true
      ∧ LateEvent.audioWarnLog ∈ (late_init mapping true upt cpu false true).events)
    ∧ (late_init mapping true upt cpu audio false).success = false := by
  refine ⟨⟨?_, ?_⟩, ?_⟩ <;> simp [late_init]

/-- C10: `late_init` calls the memory subsystem's init with
`needs_page_table` computed from the renderer's mapping method, and that
flag is true exactly for the `PageTable` and `NativeBuffer` methods —
only `Direct` yields `false`. -/
theorem late_init_need_page_table (mapping : MappingMethod) (mem_ok upt : Bool)
    (cpu : CPUBackend) (audio ngs : Bool) :
    LateEvent.memInitCall (need_page_table mapping)
        ∈ (late_init mapping mem_ok upt cpu audio ngs).events
    ∧ (need_page_table mapping = true
        ↔ (mapping = MappingMethod.PageTable ∨ mapping = MappingMethod.NativeBuffer))
    ∧ need_page_table MappingMethod.Direct = false := by
  refine ⟨?_, ?_, by decide⟩
  · cases mem_ok <;> cases ngs <;> simp [late_init]
  · cases mapping <;> simp [need_page_table]

/-- Pausing an already fully-paused thread registry changes nothing. -/
theorem kernel_pause_threads_idem (ts : List (Nat × ThreadStatus)) :
    kernel_pause_threads (kernel_pause_threads ts) = kernel_pause_threads ts := by
  simp [kernel_pause_threads, List.map_map, Function.comp_def]

/-- Resuming after a pause makes every thread of the registry runnable
again; in particular any thread that was runnable before the pause is
runnable afterwards. -/
theorem mem_kernel_resume_threads (tid : Nat) (st : ThreadStatus)
    (ts : List (Nat × ThreadStatus)) (h : (tid, st) ∈ ts) :
    (tid, ThreadStatus.run) ∈ kernel_resume_threads ts := by
  have h2 := List.mem_map_of_mem (fun t => (t.1, ThreadStatus.run)) h
  simpa [kernel_resume_threads] using h2

/-- C8: the pause direction of `switch_state` is idempotent in aggregate
effect — pausing twice yields the same observable state as pausing once
— and resuming after a pause makes every previously-running thread
runnable again and un-pauses the audio stream. -/
theorem switch_state_pause_resume (android oe : Bool) (mask : Nat) (s : SysState) :
    (switch_state android oe mask (switch_state android oe mask s true).1 true).1
      = (switch_state android oe mask s true).1
    ∧ (∀ tid, (tid, ThreadStatus.run) ∈ s.threads →
        (tid, ThreadStatus.run)
          ∈ ((switch_state android oe mask (switch_state android oe mask s true).1 false).1).threads)
    ∧ ((switch_state android oe mask (switch_state android oe mask s true).1 false).1).audio_paused
        = false := by
  refine ⟨?_, fun tid hmem => ?_, ?_⟩
  · cases android <;> simp [switch_state, kernel_pause_threads_idem]
  · have h1 : (tid, ThreadStatus.wait) ∈ kernel_pause_threads s.threads := by
      have h0 := List.mem_map_of_mem (fun t => (t.1, ThreadStatus.wait)) hmem
      simpa [kernel_pause_threads] using h0
    have h2 := mem_kernel_resume_threads tid ThreadStatus.wait _ h1
    cases android <;> cases oe <;> simpa [switch_state] using h2
  · cases android <;> cases oe <;> simp [switch_state]

theorem switch_state_pause_resume_witness :
    ((1, ThreadStatus.run) ∈ ([((1 : Nat), ThreadStatus.run)] : List (Nat × ThreadStatus)))
    ∧ (1, ThreadStatus.run)
        ∈ ((switch_state true true 7
            (switch_state true true 7 ⟨[(1, ThreadStatus.run)], false, false, 0⟩ true).1
            false).1).threads :=
  ⟨List.mem_singleton.mpr rfl,
    (switch_state_pause_resume true true 7 ⟨[(1, ThreadStatus.run)], false, false, 0⟩).2.1 1
      (List.mem_singleton.mpr rfl)⟩

/-- C9: in both directions of the `switch_state` fan-out the audio-state
transition is performed directly after the kernel thread-state
transition — the trace of effects always ends with the thread transition
followed by the audio transition — and the effects form a sequence of
more than one separate event, not a single atomic unit. -/
theorem switch_state_fanout_order (android oe : Bool) (mask : Nat)
    (s : SysState) (pause : Bool) :
    ∃ pre, (switch_state android oe mask s pause).2
        = pre ++ [FanoutEvent.threadTransition pause, FanoutEvent.audioTransition pause]
      ∧ 1 < ((switch_state android oe mask s pause).2).length := by
  cases pause <;> cases android <;> cases oe <;>
    refine ⟨_, rfl, by simp [switch_state]⟩

/-- C1 (amended): on every desktop platform where the portable
directory exists, the preference, log, config, shared and cache roles
are all rooted under the portable directory (preference =
`portable/fs`, cache = `portable/cache`, the others = the portable root),
the environment variables change no resolved role, but the base and
static-assets roles keep the executable base path — they are not moved
under the portable directory. -/
theorem init_paths_portable_roles (p : DesktopPlatform) (fsp : FsProbe)
    (env env' : EnvVars) (base sdl_pref : Path)
    (hport : fsp.isDir (portablePath p base) = true) :
    (init_paths_desktop p fsp env base sdl_pref).pref = portablePath p base ++ ["fs"]
    ∧ (init_paths_desktop p fsp env base sdl_pref).log = portablePath p base
    ∧ (init_paths_desktop p fsp env base sdl_pref).config = portablePath p base
    ∧ (init_paths_desktop p fsp env base sdl_pref).shared = portablePath p base
    ∧ (init_paths_desktop p fsp env base sdl_pref).cache = portablePath p base ++ ["cache"]
    ∧ (init_paths_desktop p fsp env base sdl_pref).base = base
    ∧ (init_paths_desktop p fsp env base sdl_pref).static_assets = base
    ∧ init_paths_desktop p fsp env base sdl_pref = init_paths_desktop p fsp env' base sdl_pref := by
  simp [init_paths_desktop, hport]

/-- Probe for the portable-mode examples: only `opt/vita3k/portable`
is a directory; nothing else exists. -/
def portable_probe : FsProbe :=
  { isDir := fun q => decide (q = ["opt", "vita3k", "portable"]), ex := fun _ => false }

/-- An environment with no variable set. -/
def env_none : EnvVars := ⟨none, none, none, none, none, none⟩

/-- An environment with every variable set. -/
def env_all : EnvVars :=
  ⟨some ["h"], some [["dd"]], some ["dh"], some ["ch"], some ["cfh"], some ["ad"]⟩

theorem init_paths_portable_roles_witness :
    portable_probe.isDir (portablePath DesktopPlatform.windows ["opt", "vita3k"]) = true
    ∧ (init_paths_desktop DesktopPlatform.windows portable_probe env_none ["opt", "vita3k"] ["sp"]).pref
        = portablePath DesktopPlatform.windows ["opt", "vita3k"] ++ ["fs"]
    ∧ init_paths_desktop DesktopPlatform.windows portable_probe env_none ["opt", "vita3k"] ["sp"]
        = init_paths_desktop DesktopPlatform.windows portable_probe env_all ["opt", "vita3k"] ["sp"] :=
  ⟨by decide,
    (init_paths_portable_roles DesktopPlatform.windows portable_probe env_none env_all
      ["opt", "vita3k"] ["sp"] (by decide)).1,
    (init_paths_portable_roles DesktopPlatform.windows portable_probe env_none env_all
      ["opt", "vita3k"] ["sp"] (by decide)).2.2.2.2.2.2.2⟩

/-- C1 counterexample: with the portable directory `opt/vita3k/portable`
present, the resolved base role is the executable directory
`opt/vita3k`, which is not rooted under the portable directory — so not
all six roles derive from it. -/
theorem init_paths_portable_base_cex :
    portable_probe.isDir (portablePath DesktopPlatform.windows ["opt", "vita3k"]) = true
    ∧ ¬ rootedUnder (portablePath DesktopPlatform.windows ["opt", "vita3k"])
        (init_paths_desktop DesktopPlatform.windows portable_probe env_none
          ["opt", "vita3k"] ["sp"]).base := by
  refine ⟨by decide, ?_⟩
  have hb : (init_paths_desktop DesktopPlatform.windows portable_probe env_none
      ["opt", "vita3k"] ["sp"]).base = ["opt", "vita3k"] := by
    simp only [init_paths_desktop]
    split <;> rfl
  rintro ⟨rest, hr⟩
  rw [hb] at hr
  have hlen := congrArg List.length hr
  simp [portablePath] at hlen

/-- Appending a nonempty suffix changes a path. -/
theorem append_ne_left (l : Path) (xs : List String) (hx : xs ≠ []) : l ++ xs ≠ l := by
  intro hr
  have hl := congrArg List.length hr
  rw [List.length_append] at hl
  have hz : xs.length = 0 := by omega
  exact hx (List.length_eq_zero.mp hz)

/-- Paths sharing a stem but with different suffixes differ. -/
theorem ne_of_last_ne (l : Path) (xs ys : List String) (h : xs ≠ ys) :
    l ++ xs ≠ l ++ ys := fun hr => h (List.append_cancel_left hr)

/-- The invariant of claim C2 for one resolved `Root`: the preference
path differs from every other role. -/
def prefDistinctIn (r : Root) : Prop :=
  r.pref ≠ r.base ∧ r.pref ≠ r.static_assets ∧ r.pref ≠ r.log
    ∧ r.pref ≠ r.config ∧ r.pref ≠ r.shared ∧ r.pref ≠ r.cache

/-- C2 (amended): the preference path differs from every other resolved
role on the Android branch, on every desktop resolution where the
portable directory exists (on Apple, for base paths of at least three
components), and on the plain desktop branch without XDG refinement
provided the platform pref path differs from the base path and its cache
subdirectory.  (On the Apple and Linux non-portable branches the
invariant can fail: legacy `ux0`/`config.yml` markers or aliased XDG
variables can make the preference path collide with another role.) -/
theorem pref_path_distinct :
    (∀ storage : Path, prefDistinctIn (init_paths_android storage))
    ∧ (∀ (p : DesktopPlatform) (fsp : FsProbe) (env : EnvVars) (base sdl_pref : Path),
        (p = DesktopPlatform.apple → 3 ≤ base.length) →
        fsp.isDir (portablePath p base) = true →
        prefDistinctIn (init_paths_desktop p fsp env base sdl_pref))
    ∧ (∀ (fsp : FsProbe) (env : EnvVars) (base sdl_pref : Path),
        fsp.isDir (portablePath DesktopPlatform.windows base) = false →
        sdl_pref ≠ base → sdl_pref ≠ base ++ ["cache"] →
        prefDistinctIn (init_paths_desktop DesktopPlatform.windows fsp env base sdl_pref)) := by
  refine ⟨fun storage => ?_, fun p fsp env base sdl_pref hlen hport => ?_,
    fun fsp env base sdl_pref hport hne hnec => ?_⟩
  · refine ⟨?_, ?_, ?_, ?_, ?_, ?_⟩ <;>
      simp only [init_paths_android] <;>
      first
        | exact append_ne_left _ _ (by decide)
        | exact ne_of_last_ne _ _ _ (by decide)
  · cases p with
    | windows =>
      simp only [portablePath] at hport
      refine ⟨?_, ?_, ?_, ?_, ?_, ?_⟩ <;>
        simp [init_paths_desktop, portablePath, hport]
    | linux =>
      simp only [portablePath] at hport
      refine ⟨?_, ?_, ?_, ?_, ?_, ?_⟩ <;>
        simp [init_paths_desktop, portablePath, hport]
    | apple =>
      have h4 : 3 ≤ base.length := hlen rfl
      simp only [portablePath] at hport
      refine ⟨?_, ?_, ?_, ?_, ?_, ?_⟩ <;>
        simp [init_paths_desktop, portablePath, hport] <;>
        first
          | exact ne_of_last_ne _ _ _ (by decide)
          | (intro hr
             have hl := congrArg List.length hr
             simp [List.length_dropLast] at hl
             omega)
  · simp only [portablePath] at hport
    refine ⟨?_, ?_, ?_, ?_, ?_, ?_⟩ <;>
      simp [init_paths_desktop, portablePath, hport] <;>
      first | exact hne | exact hnec

/-- Filesystem probe on which nothing exists. -/
def fs_false : FsProbe := { isDir := fun _ => false, ex := fun _ => false }

/-- An environment aliasing `XDG_CONFIG_HOME` with
`XDG_DATA_HOME/Vita3K`, which makes the preference and config roles
collide on Linux. -/
def env_alias : EnvVars := ⟨none, none, some ["x"], none, some ["x", "Vita3K"], none⟩

/-- C2 counterexample: on the Linux non-portable branch with
`XDG_DATA_HOME=/x` and `XDG_CONFIG_HOME=/x/Vita3K`, the resolved
preference path and config path are both `x/Vita3K/Vita3K` — the
invariant fails for this resolved configuration. -/
theorem pref_path_alias_cex :
    (init_paths_desktop DesktopPlatform.linux fs_false env_alias ["opt"] ["sp"]).pref
      = (init_paths_desktop DesktopPlatform.linux fs_false env_alias ["opt"] ["sp"]).config := by
  decide

theorem pref_path_distinct_witness :
    prefDistinctIn (init_paths_desktop DesktopPlatform.windows portable_probe env_none
      ["opt", "vita3k"] ["sp"])
    ∧ prefDistinctIn (init_paths_android ["st"]) :=
  ⟨pref_path_distinct.2.1 DesktopPlatform.windows portable_probe env_none
      ["opt", "vita3k"] ["sp"] (fun h => nomatch h) (by decide),
    pref_path_distinct.1 ["st"]⟩

end Vita3K
